import Mathlib

/-!
Shallow embedding, in Lean 4, of the core of the Deep-Seek-OCR invoice
pipeline, translated from the Python source:

  - app/schemas/invoice.py      (pydantic models, embedded as validators
    from a JSON tree into Lean structures)
  - app/services/ocr_client.py  (response coercion, parse, bounded retry loop)
  - app/services/ocr_pipeline.py (pipeline gluing rasterizer and client,
    with cleanup in a finally block)
  - utils/pdf_rasterizer.py     (PDF-bytes-to-images wrapper)
  - faiss_service/indexer.py    (semantic index: add / query / drop)

External collaborators (the HTTP transport, the JSON decoder of the
standard library, the embedding model, the FAISS similarity search and
the pdf2image renderer) are parameters of the embedded functions, so that
theorems quantify over their behaviour. JSON numbers are modelled as
integers: no claim in scope depends on fractional values, only on signs
and presence. Python exceptions are modelled as explicit error values;
the distinction that matters for the retry loop is which exception
classes the `except` clause catches, so errors are tagged by class.
-/

namespace DeepSeekOCR

/-- Model of a decoded JSON value (Python's dicts/lists/scalars as produced
by json.loads). Objects are association lists with distinct keys; numbers
are modelled as integers. -/
inductive Json where
  | null : Json
  | str (s : String) : Json
  | num (n : Int) : Json
  | bool (b : Bool) : Json
  | arr (items : List Json) : Json
  | obj (fields : List (String × Json)) : Json
deriving Repr

/-- Lookup of a key in a JSON object's field list (Python dict access). -/
def lookupField : List (String × Json) → String → Option Json
  | [], _ => none
  | (k, v) :: rest, key => if k = key then some v else lookupField rest key

/-- Python dict.setdefault on a JSON object: insert the key with the given
value when absent, leave the object unchanged when present. Only ever
applied to values already checked to be objects. -/
def Json.setdefault (j : Json) (key : String) (v : Json) : Json :=
  match j with
  | .obj fields =>
    match lookupField fields key with
    | some _ => .obj fields
    | none => .obj (fields ++ [(key, v)])
  | other => other

/-- True when the JSON value is an object (a Python dict). -/
def Json.isObj : Json → Bool
  | .obj _ => true
  | _ => false

/-- Key access on a JSON value, none when not an object or key absent. -/
def Json.getKey (j : Json) (key : String) : Option Json :=
  match j with
  | .obj fields => lookupField fields key
  | _ => none

/-! ## Schema types (app/schemas/invoice.py) -/

/-- InvoiceParty: vendor/customer metadata, every field optional. -/
structure InvoiceParty where
  name : Option String := none
  address : Option String := none
  tax_id : Option String := none
  email : Option String := none
  phone : Option String := none
deriving DecidableEq, Repr

/-- InvoiceLineItem: description required, quantity and unit_price required
and nonnegative, total optional and nonnegative. -/
structure InvoiceLineItem where
  description : String
  quantity : Int
  unit_price : Int
  total : Option Int := none
deriving DecidableEq, Repr

/-- InvoiceTotals: all numeric fields optional; subtotal, tax and total are
constrained nonnegative, discounts is unconstrained; currency defaults
to "USD". -/
structure InvoiceTotals where
  subtotal : Option Int := none
  tax : Option Int := none
  discounts : Option Int := none
  total : Option Int := none
  currency : Option String := some "USD"
deriving DecidableEq, Repr

/-- Status literal of the response: "success" or "error". -/
inductive InvoiceStatus where
  | success : InvoiceStatus
  | error : InvoiceStatus
deriving DecidableEq, Repr

/-- InvoiceData: the structured OCR payload. Calendar dates are kept as the
raw strings accepted by the validator. -/
structure InvoiceData where
  vendor : InvoiceParty := {}
  customer : InvoiceParty := {}
  invoice_number : Option String := none
  purchase_order : Option String := none
  invoice_date : Option String := none
  due_date : Option String := none
  terms : Option String := none
  notes : Option String := none
  line_items : List InvoiceLineItem := []
  totals : InvoiceTotals := {}
deriving DecidableEq, Repr

/-- InvoiceOCRResponse: the validated record returned from the pipeline. -/
structure InvoiceOCRResponse where
  schema_version : String := "invoice_v1"
  status : InvoiceStatus := .success
  model : String
  data : InvoiceData
  warnings : List String := []
  raw_text : Option String := none
deriving DecidableEq, Repr

/-! ## Validators (the model_validate semantics of the pydantic models) -/

/-- Validate an optional string field: absent or null gives none, a string
gives the string, anything else fails. -/
def validateOptStr (v : Option Json) : Except String (Option String) :=
  match v with
  | none => .ok none
  | some .null => .ok none
  | some (.str s) => .ok (some s)
  | some _ => .error "str expected"

/-- Validate a required string field: absent fails, a string succeeds. -/
def validateReqStr (v : Option Json) : Except String String :=
  match v with
  | some (.str s) => .ok s
  | some _ => .error "str expected"
  | none => .error "field required"

/-- Validate a required nonnegative number (Field ge 0). -/
def validateReqNonneg (v : Option Json) : Except String Int :=
  match v with
  | some (.num n) => if n < 0 then .error "ge 0 violated" else .ok n
  | some _ => .error "number expected"
  | none => .error "field required"

/-- Validate an optional nonnegative number (default none, ge 0 when given). -/
def validateOptNonneg (v : Option Json) : Except String (Option Int) :=
  match v with
  | none => .ok none
  | some .null => .ok none
  | some (.num n) => if n < 0 then .error "ge 0 violated" else .ok (some n)
  | some _ => .error "number expected"

/-- Validate an optional unconstrained number (the discounts field). -/
def validateOptNum (v : Option Json) : Except String (Option Int) :=
  match v with
  | none => .ok none
  | some .null => .ok none
  | some (.num n) => .ok (some n)
  | some _ => .error "number expected"

/-- Validate an InvoiceParty field: absent gives the default party, an
object validates each optional string member. -/
def validateParty (v : Option Json) : Except String InvoiceParty :=
  match v with
  | none => .ok {}
  | some (.obj fields) => do
    let name ← validateOptStr (lookupField fields "name")
    let address ← validateOptStr (lookupField fields "address")
    let tax_id ← validateOptStr (lookupField fields "tax_id")
    let email ← validateOptStr (lookupField fields "email")
    let phone ← validateOptStr (lookupField fields "phone")
    .ok { name, address, tax_id, email, phone }
  | some _ => .error "InvoiceParty expected"

/-- Validate a single line item: description is required text, quantity and
unit_price are required nonnegative numbers, total optional nonnegative. -/
def validateLineItem (v : Json) : Except String InvoiceLineItem :=
  match v with
  | .obj fields => do
    let description ← validateReqStr (lookupField fields "description")
    let quantity ← validateReqNonneg (lookupField fields "quantity")
    let unit_price ← validateReqNonneg (lookupField fields "unit_price")
    let total ← validateOptNonneg (lookupField fields "total")
    .ok { description, quantity, unit_price, total }
  | _ => .error "InvoiceLineItem expected"

/-- Validate the list of line items in order. -/
def validateLineItems : List Json → Except String (List InvoiceLineItem)
  | [] => .ok []
  | item :: rest => do
    let head ← validateLineItem item
    let tail ← validateLineItems rest
    .ok (head :: tail)

/-- Validate the totals: subtotal, tax and total reject negative values,
discounts is unconstrained, currency defaults to "USD" when absent. -/
def validateTotals (v : Option Json) : Except String InvoiceTotals :=
  match v with
  | none => .ok {}
  | some (.obj fields) => do
    let subtotal ← validateOptNonneg (lookupField fields "subtotal")
    let tax ← validateOptNonneg (lookupField fields "tax")
    let discounts ← validateOptNum (lookupField fields "discounts")
    let total ← validateOptNonneg (lookupField fields "total")
    let currency ←
      match lookupField fields "currency" with
      | none => .ok (some "USD")
      | some .null => .ok none
      | some (.str s) => .ok (some s)
      | some _ => .error "str expected"
    .ok { subtotal, tax, discounts, total, currency }
  | some _ => .error "InvoiceTotals expected"

/-- Validate the status literal: absent defaults to success; only the
strings "success" and "error" are accepted. -/
def validateStatus (v : Option Json) : Except String InvoiceStatus :=
  match v with
  | none => .ok .success
  | some (.str "success") => .ok .success
  | some (.str "error") => .ok .error
  | some _ => .error "literal success or error expected"

/-- Validate the warnings list: absent defaults to the empty list. -/
def validateWarnings (v : Option Json) : Except String (List String) :=
  match v with
  | none => .ok []
  | some (.arr items) => go items
  | some _ => .error "list of str expected"
where
  go : List Json → Except String (List String)
    | [] => .ok []
    | .str s :: rest => do
      let tail ← go rest
      .ok (s :: tail)
    | _ :: _ => .error "str expected"

/-- Validate the InvoiceData payload from a JSON value. -/
def validateInvoiceData (v : Option Json) : Except String InvoiceData :=
  match v with
  | some (.obj fields) => do
    let vendor ← validateParty (lookupField fields "vendor")
    let customer ← validateParty (lookupField fields "customer")
    let invoice_number ← validateOptStr (lookupField fields "invoice_number")
    let purchase_order ← validateOptStr (lookupField fields "purchase_order")
    let invoice_date ← validateOptStr (lookupField fields "invoice_date")
    let due_date ← validateOptStr (lookupField fields "due_date")
    let terms ← validateOptStr (lookupField fields "terms")
    let notes ← validateOptStr (lookupField fields "notes")
    let line_items ←
      match lookupField fields "line_items" with
      | none => .ok []
      | some (.arr items) => validateLineItems items
      | some _ => .error "list expected"
    let totals ← validateTotals (lookupField fields "totals")
    .ok { vendor, customer, invoice_number, purchase_order, invoice_date,
          due_date, terms, notes, line_items, totals }
  | some _ => .error "InvoiceData expected"
  | none => .error "field required"

/-- Validate a full InvoiceOCRResponse from a JSON value, the embedding of
InvoiceOCRResponse.model_validate: model and data are required, the other
fields have defaults. -/
def validateResponse (v : Json) : Except String InvoiceOCRResponse :=
  match v with
  | .obj fields => do
    let schema_version ←
      match lookupField fields "schema_version" with
      | none => .ok "invoice_v1"
      | some (.str s) => .ok s
      | some _ => .error "str expected"
    let status ← validateStatus (lookupField fields "status")
    let model ← validateReqStr (lookupField fields "model")
    let data ← validateInvoiceData (lookupField fields "data")
    let warnings ← validateWarnings (lookupField fields "warnings")
    let raw_text ← validateOptStr (lookupField fields "raw_text")
    .ok { schema_version, status, model, data, warnings, raw_text }
  | _ => .error "InvoiceOCRResponse expected"

/-! ## OCR client (app/services/ocr_client.py) -/

/-- Settings fields consumed by the OCR client (app/core/config.py). -/
structure Settings where
  deepseek_model : String := "deepseek-ai/DeepSeek-OCR"
  max_request_retries : Nat := 3
deriving DecidableEq, Repr

/-- Exceptions that can leave _parse_completion. OCRClientError and the
pydantic ValidationError are in the except clause of the retry loop and
are retried; uncaught models a Python AttributeError or TypeError raised
by calling setdefault on a non-dict JSON value (or loading non-string
content), which is in no except clause and aborts the loop. -/
inductive ParseErr where
  | ocrClientError (msg : String) : ParseErr
  | validationError (msg : String) : ParseErr
  | uncaught (msg : String) : ParseErr
deriving DecidableEq, Repr

/-- Exceptions an attempt can fail with retryably: transport errors
(httpx.HTTPError), OCRClientError and ValidationError. -/
inductive AttemptError where
  | httpError (msg : String) : AttemptError
  | ocrClientError (msg : String) : AttemptError
  | validationError (msg : String) : AttemptError
deriving DecidableEq, Repr

/-- Final outcomes of extract_invoice: the empty-input ValueError, the
terminal OCRClientError raised after the retry loop (carrying the last
underlying failure as its cause), or an uncaught exception that escaped
the loop. -/
inductive ExtractError where
  | valueError (msg : String) : ExtractError
  | ocrFailedAfterRetries (cause : Option AttemptError) : ExtractError
  | uncaughtError (msg : String) : ExtractError
deriving DecidableEq, Repr

/-- Update applied to the data entry by the nested setdefault of totals. -/
def updateDataEntry (kv : String × Json) : String × Json :=
  if kv.1 = "data" then (kv.1, kv.2.setdefault "totals" (.obj [])) else kv

/-- Coercion pass of _parse_completion: the five setdefault calls plus the
nested setdefault of totals inside data. Only called once the decoded
value is known to be an object. -/
def coerceDefaults (model : String) (j : Json) : Json :=
  let j := j.setdefault "schema_version" (.str "invoice_v1")
  let j := j.setdefault "status" (.str "success")
  let j := j.setdefault "model" (.str model)
  let j := j.setdefault "warnings" (.arr [])
  let j := j.setdefault "data" (.obj [])
  match j with
  | .obj fields => .obj (fields.map updateDataEntry)
  | other => other

/-- Extraction of completion choices 0 message content, the try block at
the top of _parse_completion. A missing key or empty choices list raises
a KeyError or IndexError, both converted to OCRClientError; indexing a
non-container raises an uncaught TypeError. -/
def extractContent (completion : Json) : Except ParseErr String := do
  let choices ←
    match completion with
    | .obj fields =>
      match lookupField fields "choices" with
      | some c => Except.ok c
      | none => Except.error (ParseErr.ocrClientError "Malformed completion payload")
    | _ => Except.error (ParseErr.uncaught "TypeError: completion is not a mapping")
  let choice0 ←
    match choices with
    | .arr [] => Except.error (ParseErr.ocrClientError "Malformed completion payload")
    | .arr (c :: _) => Except.ok c
    | .obj _ => Except.error (ParseErr.ocrClientError "Malformed completion payload")
    | _ => Except.error (ParseErr.uncaught "TypeError: choices is not indexable")
  let message ←
    match choice0 with
    | .obj fields =>
      match lookupField fields "message" with
      | some m => Except.ok m
      | none => Except.error (ParseErr.ocrClientError "Malformed completion payload")
    | _ => Except.error (ParseErr.uncaught "TypeError: choice is not a mapping")
  let content ←
    match message with
    | .obj fields =>
      match lookupField fields "content" with
      | some c => Except.ok c
      | none => Except.error (ParseErr.ocrClientError "Malformed completion payload")
    | _ => Except.error (ParseErr.uncaught "TypeError: message is not a mapping")
  match content with
  | .str s => Except.ok s
  | _ => Except.error (ParseErr.uncaught "TypeError: the JSON object must be str")

/-- Coercion and validation of the decoded content: setdefault on a
non-dict value (the decoded top level, or its data member) raises an
uncaught AttributeError; otherwise the defaults are filled and the
result validated against the schema, a validation failure raising the
retryable ValidationError. -/
def parseDecoded (settings : Settings) (data : Json) :
    Except ParseErr InvoiceOCRResponse :=
  if data.isObj then
    let coerced := coerceDefaults settings.deepseek_model data
    match coerced.getKey "data" with
    | some d =>
      if d.isObj then
        match validateResponse coerced with
        | .ok record => Except.ok record
        | .error msg => Except.error (ParseErr.validationError msg)
      else
        Except.error (ParseErr.uncaught "AttributeError: data member has no setdefault")
    | none => Except.error (ParseErr.uncaught "unreachable: data key was defaulted")
  else
    Except.error (ParseErr.uncaught "AttributeError: decoded value has no setdefault")

/-- Embedding of DeepSeekOCRClient._parse_completion. The decoder stands
for json.loads restricted to success or failure (failure raises
JSONDecodeError, converted to OCRClientError): extract the message
content, decode it, fill defaults and validate. -/
def parse_completion (decode : String → Option Json) (settings : Settings)
    (completion : Json) : Except ParseErr InvoiceOCRResponse := do
  let contentStr ← extractContent completion
  match decode contentStr with
  | some d => parseDecoded settings d
  | none => Except.error (ParseErr.ocrClientError "Model did not return valid JSON")

/-- Result of one request/parse/validate attempt: an immediate success, a
retryable failure caught by the except clause, or a fatal uncaught
exception. The transport maps the attempt number to either an
httpx.HTTPError or the completion JSON it returned. -/
inductive AttemptResult where
  | success (record : InvoiceOCRResponse) : AttemptResult
  | retryable (e : AttemptError) : AttemptResult
  | fatal (msg : String) : AttemptResult
deriving DecidableEq, Repr

/-- One full attempt of the retry loop body: post the completion request,
then parse and validate it. -/
def attemptResult (decode : String → Option Json) (settings : Settings)
    (transport : Nat → Except String Json) (attempt : Nat) : AttemptResult :=
  match transport attempt with
  | .error msg => .retryable (.httpError msg)
  | .ok completion =>
    match parse_completion decode settings completion with
    | .ok record => .success record
    | .error (.ocrClientError msg) => .retryable (.ocrClientError msg)
    | .error (.validationError msg) => .retryable (.validationError msg)
    | .error (.uncaught msg) => .fatal msg

/-- The retry loop of extract_invoice: attempts are numbered from 1;
remaining counts loop iterations left; last carries last_error. Returns
the outcome paired with the number of attempts performed. -/
def extractLoop (decode : String → Option Json) (settings : Settings)
    (transport : Nat → Except String Json) (attempt : Nat) (remaining : Nat)
    (last : Option AttemptError) :
    Except ExtractError InvoiceOCRResponse × Nat :=
  match remaining with
  | 0 => (.error (.ocrFailedAfterRetries last), 0)
  | r + 1 =>
    match attemptResult decode settings transport attempt with
    | .success record => (.ok record, 1)
    | .retryable e =>
      let rest := extractLoop decode settings transport (attempt + 1) r (some e)
      (rest.1, rest.2 + 1)
    | .fatal msg => (.error (.uncaughtError msg), 1)

/-- Trace of one extract_invoice call: its outcome, how many images were
base64-encoded, and how many transport calls (attempts) were made. -/
structure ExtractTrace where
  result : Except ExtractError InvoiceOCRResponse
  encodeCalls : Nat
  transportCalls : Nat
deriving Repr

/-- Embedding of DeepSeekOCRClient.extract_invoice: reject empty input with
a ValueError before encoding or any transport call, then encode every
image and run up to max_request_retries attempts. -/
def extract_invoice (decode : String → Option Json) (settings : Settings)
    (transport : Nat → Except String Json) (image_paths : List String) :
    ExtractTrace :=
  if image_paths.isEmpty then
    { result := .error (.valueError "Expected at least one image for OCR"),
      encodeCalls := 0, transportCalls := 0 }
  else
    let loop := extractLoop decode settings transport 1 settings.max_request_retries none
    { result := loop.1, encodeCalls := image_paths.length, transportCalls := loop.2 }

/-! ## Rasterizer (utils/pdf_rasterizer.py) -/

/-- Container tracking the temporary page image paths of one PDF. -/
structure RasterizedPDF where
  image_paths : List String
deriving DecidableEq, Repr

/-- Zero-padded three-digit page number used in the page file names. -/
def pagePad (n : Nat) : String :=
  let s := toString n
  if s.length ≥ 3 then s else String.mk (List.replicate (3 - s.length) '0') ++ s

/-- Embedding of pdf_bytes_to_images. The pdf2image renderer is a
parameter: convert_from_bytes either raises (its exception propagates
unchanged, the function defines and raises no error of its own) or
returns the list of page images, here reduced to a page count. Every
rendered page is saved as page_NNN.png in order, and the resulting
container is returned as a success, including when the count is zero. -/
def pdf_bytes_to_images (convert : Except String Nat) :
    Except String RasterizedPDF :=
  match convert with
  | .error e => .error e
  | .ok pageCount =>
    .ok { image_paths :=
            (List.range pageCount).map fun i => "page_" ++ pagePad (i + 1) ++ ".png" }

/-! ## Pipeline (app/services/ocr_pipeline.py) -/

/-- Failures that can leave InvoiceOCRPipeline.run: the rasterizer's
exception or the OCR client's, both propagated unchanged. -/
inductive PipeError where
  | rasterError (msg : String) : PipeError
  | ocrError (e : ExtractError) : PipeError
deriving DecidableEq, Repr

/-- Trace of one pipeline run: outcome, number of cleanup invocations on
the rasterized resource, and the OCR client's encode and transport
counts. -/
structure PipelineTrace where
  result : Except PipeError InvoiceOCRResponse
  cleanupCalls : Nat
  encodeCalls : Nat
  transportCalls : Nat

/-- Embedding of InvoiceOCRPipeline.run. Rasterization happens first; when
it fails nothing was assigned, so no cleanup runs and the error
propagates. When it succeeds, the OCR client runs and the finally block
invokes cleanup exactly once; a cleanup exception (cleanupRaises) is
caught by the surrounding except clause and logged, so the OCR client's
result or error is returned unchanged regardless. -/
def pipelineRun (raster : Except String RasterizedPDF)
    (ocr : List String → ExtractTrace) (cleanupRaises : Bool) : PipelineTrace :=
  match raster with
  | .error msg =>
    { result := .error (.rasterError msg), cleanupCalls := 0,
      encodeCalls := 0, transportCalls := 0 }
  | .ok rasterized =>
    let t := ocr rasterized.image_paths
    let _cleanupOutcome := cleanupRaises
    { result :=
        match t.result with
        | .ok record => .ok record
        | .error e => .error (.ocrError e),
      cleanupCalls := 1,
      encodeCalls := t.encodeCalls, transportCalls := t.transportCalls }

/-! ## Semantic index (faiss_service/indexer.py) -/

/-- Stored entry: the serialized invoice payload next to the text used for
embedding. The payload of model_dump is kept as the record itself. -/
structure IndexedInvoice where
  payload : InvoiceOCRResponse
  raw_text : String
deriving DecidableEq, Repr

/-- The FAISS IndexFlatIP as visible to this code: its dimension and its
stored vectors (ntotal is the number of vectors). -/
structure FaissFlat where
  dim : Nat
  vectors : List (List Int)
deriving DecidableEq, Repr

/-- State of InvoiceFaissIndex: the lazily created similarity structure and
the parallel payload store. -/
structure IndexState where
  index : Option FaissFlat := none
  store : List IndexedInvoice := []
deriving DecidableEq, Repr

/-- Element count of the similarity structure (ntotal; zero when the index
was never created). -/
def indexCount (st : IndexState) : Nat :=
  match st.index with
  | none => 0
  | some f => f.vectors.length

/-- Embedding of InvoiceFaissIndex.add_invoices. The sentence-transformer
encode is a parameter mapping each serialized text to its vector (one
vector per text). Empty input returns immediately; otherwise the index is
created on first use with the observed dimension, the vectors are
appended to it, and one payload+text entry per invoice is appended to the
store. -/
def add_invoices (serialize : InvoiceOCRResponse → String)
    (embed : String → List Int) (st : IndexState)
    (invoices : List InvoiceOCRResponse) : IndexState :=
  if invoices.isEmpty then st
  else
    let texts := invoices.map serialize
    let embeddings := texts.map embed
    let dim := (embeddings.headD []).length
    let faiss :=
      match st.index with
      | none => { dim := dim, vectors := [] : FaissFlat }
      | some f => f
    { index := some { faiss with vectors := faiss.vectors ++ embeddings },
      store := st.store ++
        invoices.map fun invoice =>
          { payload := invoice, raw_text := serialize invoice } }

/-- Embedding of InvoiceFaissIndex.query. The FAISS search is a parameter
giving, for the current index, query text and top_k, the flat list of
(position, score) pairs of length top_k returned by index.search (a
negative position is the FAISS no-match sentinel). Positions that are
negative or not below the store length are skipped; the others are mapped
back to the stored payload. -/
def queryIndex (search : FaissFlat → String → Nat → List (Int × Int))
    (st : IndexState) (query_text : String) (top_k : Nat) :
    List (Int × InvoiceOCRResponse) :=
  match st.index with
  | none => []
  | some f =>
    (search f query_text top_k).filterMap fun (pair : Int × Int) =>
      if pair.1 < 0 ∨ (st.store.length : Int) ≤ pair.1 then none
      else
        match st.store.get? pair.1.toNat with
        | some entry => some (pair.2, entry.payload)
        | none => none

/-- Embedding of InvoiceFaissIndex.drop: the similarity structure is
discarded and the store cleared. -/
def dropIndex (_st : IndexState) : IndexState :=
  { index := none, store := [] }

/-- A call sequence against the index: add_invoices or drop. -/
inductive IndexOp where
  | add (invoices : List InvoiceOCRResponse) : IndexOp
  | drop : IndexOp

/-- Apply one index operation to the state. -/
def applyOp (serialize : InvoiceOCRResponse → String)
    (embed : String → List Int) (st : IndexState) (op : IndexOp) : IndexState :=
  match op with
  | .add invoices => add_invoices serialize embed st invoices
  | .drop => dropIndex st

/-- Apply a sequence of index operations from a starting state. -/
def applyOps (serialize : InvoiceOCRResponse → String)
    (embed : String → List Int) (st : IndexState) : List IndexOp → IndexState
  | [] => st
  | op :: rest => applyOps serialize embed (applyOp serialize embed st op) rest

/-! ## Shared helper definitions for concrete scenarios -/

/-- Build the completion envelope the transport returns around a message
content string. -/
def mkCompletion (content : String) : Json :=
  .obj [("choices", .arr [.obj [("message", .obj [("content", .str content)])]])]

/-- Decoder used in concrete scenarios: the string "good" decodes to a
minimal response object carrying only an empty data object. -/
def goodDecode : String → Option Json :=
  fun s => if s = "good" then some (.obj [("data", .obj [])]) else none

/-- The record the default settings produce from the minimal response. -/
def sampleRecord : InvoiceOCRResponse :=
  { model := "deepseek-ai/DeepSeek-OCR", data := {} }

/-- Transport that fails once with a timeout and then returns the minimal
valid completion. -/
def flakyTransport : Nat → Except String Json :=
  fun attempt => if attempt = 1 then .error "timeout" else .ok (mkCompletion "good")

/-- Transport that always fails. -/
def deadTransport : Nat → Except String Json :=
  fun _ => .error "connection refused"

/-- Decoder for the C7 scenario: the content "[]" is valid JSON but decodes
to an array, not an object. -/
def arrayContentDecode : String → Option Json :=
  fun s => if s = "[]" then some (.arr []) else none

/-- Transport for the C7 scenario: every attempt returns a completion whose
message content is "[]". -/
def arrayContentTransport : Nat → Except String Json :=
  fun _ => .ok (mkCompletion "[]")

/-- Decoder for the C9 scenario: the content "tagged" decodes to a response
that carries an explicit schema_version different from "invoice_v1". -/
def taggedDecode : String → Option Json :=
  fun s =>
    if s = "tagged" then
      some (.obj [("schema_version", .str "invoice_v2"), ("data", .obj [])])
    else none

/-- Transport for the C9 scenario. -/
def taggedTransport : Nat → Except String Json :=
  fun _ => .ok (mkCompletion "tagged")

/-! ## Loop lemmas for the retry policy -/

/-- When the first k attempts starting at a fail retryably and attempt a+k
succeeds within the remaining budget, the loop returns that success after
exactly k+1 attempts. -/
theorem extractLoop_success_at (decode : String → Option Json) (settings : Settings)
    (transport : Nat → Except String Json) :
    ∀ (k r a : Nat) (l : Option AttemptError) (rec : InvoiceOCRResponse),
      k < r →
      (∀ i, a ≤ i → i < a + k → ∃ e, attemptResult decode settings transport i = .retryable e) →
      attemptResult decode settings transport (a + k) = .success rec →
      extractLoop decode settings transport a r l = (.ok rec, k + 1) := by
  intro k
  induction k with
  | zero =>
    intro r a l rec hk _ hsucc
    match r, hk with
    | r' + 1, _ =>
      simp only [extractLoop]
      rw [Nat.add_zero] at hsucc
      rw [hsucc]
  | succ k ih =>
    intro r a l rec hk hfail hsucc
    match r, hk with
    | r' + 1, hk =>
      obtain ⟨e, he⟩ := hfail a (Nat.le_refl a) (by omega)
      simp only [extractLoop, he]
      have hrest := ih r' (a + 1) (some e) rec (by omega)
        (fun i h1 h2 => hfail i (by omega) (by omega))
        (by rw [show a + 1 + k = a + (k + 1) by omega]; exact hsucc)
      rw [hrest]

/-- When every attempt in the budget fails retryably, the loop performs the
whole budget and reports the last failure as the cause. -/
theorem extractLoop_all_fail (decode : String → Option Json) (settings : Settings)
    (transport : Nat → Except String Json) (e : Nat → AttemptError) :
    ∀ (r a : Nat) (l : Option AttemptError),
      1 ≤ r →
      (∀ i, a ≤ i → i < a + r → attemptResult decode settings transport i = .retryable (e i)) →
      extractLoop decode settings transport a r l =
        (.error (.ocrFailedAfterRetries (some (e (a + r - 1)))), r) := by
  intro r
  induction r with
  | zero => intro a l h; omega
  | succ r' ih =>
    intro a l _ hfail
    have he := hfail a (Nat.le_refl a) (by omega)
    simp only [extractLoop, he]
    cases Nat.eq_zero_or_pos r' with
    | inl hz =>
      subst hz
      simp only [extractLoop]
      norm_num
    | inr hpos =>
      have hrest := ih (a + 1) (some (e a)) hpos
        (fun i h1 h2 => hfail i (by omega) (by omega))
      rw [hrest]
      have harith : a + 1 + r' - 1 = a + (r' + 1) - 1 := by omega
      rw [harith]

/-! ## Lookup lemmas for the coercion pass -/

/-- Lookup distributes over append: the left list wins when it has the key. -/
theorem lookupField_append (l1 l2 : List (String × Json)) (k : String) :
    lookupField (l1 ++ l2) k =
      match lookupField l1 k with
      | some v => some v
      | none => lookupField l2 k := by
  induction l1 with
  | nil => rfl
  | cons kv rest ih =>
    obtain ⟨a, b⟩ := kv
    by_cases h : a = k
    · simp [lookupField, h]
    · simp [lookupField, h, ih]

/-- Characterization of setdefault on an object: the result is an object
whose lookups agree with the original except that the missing set key now
maps to the default. -/
theorem lookupField_setdefault (fields : List (String × Json)) (setKey : String) (v : Json) :
    ∃ F, (Json.obj fields).setdefault setKey v = Json.obj F ∧
      ∀ k, lookupField F k =
        match lookupField fields k with
        | some w => some w
        | none => if k = setKey then some v else none := by
  simp only [Json.setdefault]
  cases hs : lookupField fields setKey with
  | some w =>
    refine ⟨fields, rfl, fun k => ?_⟩
    cases hk : lookupField fields k with
    | some w' => rfl
    | none =>
      simp only
      rw [if_neg]
      intro he
      subst he
      rw [hs] at hk
      cases hk
  | none =>
    refine ⟨fields ++ [(setKey, v)], rfl, fun k => ?_⟩
    rw [lookupField_append]
    cases hk : lookupField fields k with
    | some w' => rfl
    | none =>
      simp only [lookupField]
      by_cases he : setKey = k
      · subst he
        simp
      · rw [if_neg he, if_neg (fun h => he h.symm)]

/-- Lookup through the map that applies the totals setdefault to the data
entry: the data key gets the updated value, all other keys are untouched. -/
theorem lookupField_map_updateData (fields : List (String × Json)) (k : String) :
    lookupField (fields.map updateDataEntry) k =
      if k = "data" then
        (lookupField fields "data").map (fun d => d.setdefault "totals" (.obj []))
      else lookupField fields k := by
  induction fields with
  | nil => by_cases hk : k = "data" <;> simp [lookupField, hk]
  | cons kv rest ih =>
    obtain ⟨a, b⟩ := kv
    simp only [List.map_cons, updateDataEntry]
    by_cases ha : a = "data"
    · subst ha
      by_cases hk : k = "data"
      · subst hk
        simp [lookupField]
      · have hne : ¬ ("data" = k) := fun h => hk h.symm
        simp [lookupField, hne, hk, ih]
    · simp only [if_neg ha]
      by_cases hk : k = "data"
      · subst hk
        have hne : ¬ (a = "data") := ha
        simp [lookupField, hne, ih]
      · by_cases hak : a = k
        · subst hak
          simp [lookupField, hk]
        · simp [lookupField, hak, ih, hk]

/-- Master characterization of coerceDefaults on an object: the result is
an object in which the four boilerplate keys fall back to their defaults
when missing, the data member is the original one (or an empty object)
with totals defaulted, and every other key is unchanged. -/
theorem coerceDefaults_lookup (m : String) (fields : List (String × Json)) :
    ∃ F, coerceDefaults m (.obj fields) = .obj F ∧
      (∀ k, k ≠ "data" →
        lookupField F k =
          match lookupField fields k with
          | some w => some w
          | none =>
            if k = "schema_version" then some (.str "invoice_v1")
            else if k = "status" then some (.str "success")
            else if k = "model" then some (.str m)
            else if k = "warnings" then some (.arr [])
            else none) ∧
      lookupField F "data" =
        some ((match lookupField fields "data" with
               | some d => d
               | none => Json.obj []).setdefault "totals" (.obj [])) := by
  obtain ⟨F1, hF1, hL1⟩ := lookupField_setdefault fields "schema_version" (.str "invoice_v1")
  obtain ⟨F2, hF2, hL2⟩ := lookupField_setdefault F1 "status" (.str "success")
  obtain ⟨F3, hF3, hL3⟩ := lookupField_setdefault F2 "model" (.str m)
  obtain ⟨F4, hF4, hL4⟩ := lookupField_setdefault F3 "warnings" (.arr [])
  obtain ⟨F5, hF5, hL5⟩ := lookupField_setdefault F4 "data" (.obj [])
  refine ⟨F5.map updateDataEntry, ?_, ?_, ?_⟩
  · simp only [coerceDefaults, hF1, hF2, hF3, hF4, hF5]
  · intro k hk
    rw [lookupField_map_updateData, if_neg hk, hL5 k, hL4 k, hL3 k, hL2 k, hL1 k]
    cases lookupField fields k with
    | some w => rfl
    | none =>
      by_cases h1 : k = "schema_version"
      · simp [h1]
      · rw [if_neg h1]
        by_cases h2 : k = "status"
        · simp [h2, h1]
        · rw [if_neg h2]
          by_cases h3 : k = "model"
          · simp [h3, h2, h1]
          · rw [if_neg h3]
            by_cases h4 : k = "warnings"
            · simp [h4, h3, h2, h1]
            · simp [if_neg h4, hk, h4, h3, h2, h1]
  · rw [lookupField_map_updateData, if_pos rfl, hL5 "data", hL4 "data", hL3 "data",
        hL2 "data", hL1 "data"]
    cases lookupField fields "data" with
    | some w => rfl
    | none => simp

/-! ## Validation lemmas -/

/-- A successful parseDecoded is exactly a successful schema validation of
the coerced value. -/
theorem parseDecoded_ok (settings : Settings) (d : Json) (rec : InvoiceOCRResponse)
    (h : parseDecoded settings d = .ok rec) :
    validateResponse (coerceDefaults settings.deepseek_model d) = .ok rec := by
  simp only [parseDecoded] at h
  repeat' split at h
  all_goals simp_all

/-- A successful parse_completion of the standard completion envelope is a
successful parseDecoded of the decoded content. -/
theorem parse_completion_mk (decode : String → Option Json) (settings : Settings)
    (content : String) :
    parse_completion decode settings (mkCompletion content) =
      match decode content with
      | some d => parseDecoded settings d
      | none => .error (.ocrClientError "Model did not return valid JSON") := rfl

/-- The schema_version of a validated record: "invoice_v1" when the
(coerced) object misses the key, the supplied string otherwise. -/
theorem validateResponse_schema_version (F : List (String × Json))
    (rec : InvoiceOCRResponse) (h : validateResponse (.obj F) = .ok rec) :
    (lookupField F "schema_version" = none → rec.schema_version = "invoice_v1") ∧
    (∀ v, lookupField F "schema_version" = some (.str v) → rec.schema_version = v) := by
  simp only [validateResponse, bind, Except.bind] at h
  repeat' split at h
  all_goals simp_all
  all_goals (subst h; rfl)

/-- A line item without a description fails validation (description is a
required field with no default). -/
theorem validateLineItem_missing_description (ifields : List (String × Json))
    (h : lookupField ifields "description" = none) :
    (validateLineItem (.obj ifields)).isOk = false := by
  simp [validateLineItem, h, validateReqStr, bind, Except.bind, Except.isOk, Except.toBool]

/-- A line item whose quantity, unit_price or total carries a negative
number fails validation. -/
theorem validateLineItem_negative (ifields : List (String × Json)) (fname : String)
    (n : Int) (hneg : n < 0)
    (hf : fname = "quantity" ∨ fname = "unit_price" ∨ fname = "total")
    (hlook : lookupField ifields fname = some (.num n)) :
    (validateLineItem (.obj ifields)).isOk = false := by
  simp only [validateLineItem, bind, Except.bind]
  rcases hf with hq | hu | ht
  · subst hq
    rw [hlook]
    simp only [validateReqNonneg, if_pos hneg]
    repeat' split
    all_goals simp [Except.isOk, Except.toBool]
  · subst hu
    rw [hlook]
    simp only [validateReqNonneg, if_pos hneg]
    repeat' split
    all_goals simp [Except.isOk, Except.toBool]
  · subst ht
    rw [hlook]
    simp only [validateOptNonneg, if_pos hneg]
    repeat' split
    all_goals simp [Except.isOk, Except.toBool]

/-- A list of line items containing a failing one fails as a whole. -/
theorem validateLineItems_err (items : List Json) (item : Json)
    (hmem : item ∈ items) (herr : (validateLineItem item).isOk = false) :
    (validateLineItems items).isOk = false := by
  induction items with
  | nil => cases hmem
  | cons a rest ih =>
    simp only [validateLineItems, bind, Except.bind]
    cases ha : validateLineItem a with
    | error m => simp [Except.isOk, Except.toBool]
    | ok x =>
      rcases List.mem_cons.mp hmem with h | h
      · subst h
        rw [ha] at herr
        simp [Except.isOk, Except.toBool] at herr
      · have := ih h
        cases hrest : validateLineItems rest with
        | error m => simp [Except.isOk, Except.toBool]
        | ok xs =>
          rw [hrest] at this
          simp [Except.isOk, Except.toBool] at this

/-- An InvoiceData payload whose line_items member contains a failing item
fails validation as a whole. -/
theorem validateInvoiceData_err_of_lineitems (dfields : List (String × Json))
    (items : List Json)
    (hli : lookupField dfields "line_items" = some (.arr items))
    (herr : (validateLineItems items).isOk = false) :
    (validateInvoiceData (some (.obj dfields))).isOk = false := by
  simp only [validateInvoiceData, bind, Except.bind, hli]
  repeat' split
  all_goals simp_all [Except.isOk, Except.toBool]

/-- A totals object in which subtotal, tax or total carries a negative
number fails validation. -/
theorem validateTotals_negative (tfields : List (String × Json)) (fname : String)
    (n : Int) (hneg : n < 0)
    (hf : fname = "subtotal" ∨ fname = "tax" ∨ fname = "total")
    (hlook : lookupField tfields fname = some (.num n)) :
    (validateTotals (some (.obj tfields))).isOk = false := by
  simp only [validateTotals, bind, Except.bind]
  rcases hf with h1 | h2 | h3
  · subst h1
    rw [hlook]
    simp only [validateOptNonneg, if_pos hneg]
    simp [Except.isOk, Except.toBool]
  · subst h2
    rw [hlook]
    simp only [validateOptNonneg, if_pos hneg]
    repeat' split
    all_goals simp [Except.isOk, Except.toBool]
  · subst h3
    rw [hlook]
    simp only [validateOptNonneg, if_pos hneg]
    repeat' split
    all_goals simp [Except.isOk, Except.toBool]

/-- An InvoiceData payload whose totals member fails validation fails as a
whole. -/
theorem validateInvoiceData_err_of_totals (dfields : List (String × Json))
    (tj : Json)
    (ht : lookupField dfields "totals" = some tj)
    (herr : (validateTotals (some tj)).isOk = false) :
    (validateInvoiceData (some (.obj dfields))).isOk = false := by
  simp only [validateInvoiceData, bind, Except.bind, ht]
  repeat' split
  all_goals simp_all [Except.isOk, Except.toBool]

/-- A response whose data member fails validation fails as a whole. -/
theorem validateResponse_err_of_data (fields : List (String × Json))
    (herr : (validateInvoiceData (lookupField fields "data")).isOk = false) :
    (validateResponse (.obj fields)).isOk = false := by
  simp only [validateResponse, bind, Except.bind]
  repeat' split
  all_goals simp_all [Except.isOk, Except.toBool]

/-- setdefault on an object yields an object. -/
theorem setdefault_obj_isObj (l : List (String × Json)) (k : String) (v : Json) :
    ((Json.obj l).setdefault k v).isObj = true := by
  simp only [Json.setdefault]
  cases lookupField l k <;> rfl

/-- Full evaluation of validateResponse from the lookups of its fields. -/
theorem validateResponse_of_lookups (F : List (String × Json)) (sv m : String)
    (dj : Json) (dd : InvoiceData)
    (hsv : lookupField F "schema_version" = some (.str sv))
    (hst : lookupField F "status" = some (.str "success"))
    (hm : lookupField F "model" = some (.str m))
    (hd : lookupField F "data" = some dj)
    (hw : lookupField F "warnings" = some (.arr []))
    (hr : lookupField F "raw_text" = none)
    (hval : validateInvoiceData (some dj) = .ok dd) :
    validateResponse (.obj F) =
      .ok { schema_version := sv, status := .success, model := m, data := dd,
            warnings := [], raw_text := none } := by
  have h1 : validateStatus (some (Json.str "success")) = .ok .success := rfl
  have h2 : validateReqStr (some (Json.str m)) = .ok m := rfl
  have h3 : validateWarnings (some (Json.arr [])) = .ok [] := rfl
  have h4 : validateOptStr (none : Option Json) = .ok none := rfl
  simp only [validateResponse, bind, Except.bind, hsv, hst, hm, hd, hw, hr, hval,
    h1, h2, h3, h4]

/-- When the coerced value's data member is an object and validation fails,
parseDecoded raises the retryable ValidationError. -/
theorem parseDecoded_validationError (settings : Settings)
    (fields F : List (String × Json)) (d' : Json)
    (hF : coerceDefaults settings.deepseek_model (.obj fields) = .obj F)
    (hd : lookupField F "data" = some d')
    (hobj : d'.isObj = true)
    (herr : (validateResponse (.obj F)).isOk = false) :
    ∃ msg, parseDecoded settings (.obj fields) = .error (.validationError msg) := by
  have houter : (Json.obj fields).isObj = true := rfl
  cases hv : validateResponse (.obj F) with
  | ok record =>
    rw [hv] at herr
    simp [Except.isOk, Except.toBool] at herr
  | error msg =>
    refine ⟨msg, ?_⟩
    simp [parseDecoded, houter, hF, Json.getKey, hd, hobj, hv]

/-! ## Claim theorems -/

/-- C1: for every non-empty image sequence, extract_invoice performs at
most max_request_retries sequential attempts, each a full
request/parse/validate cycle; a schema-valid record at attempt N (with
the earlier N-1 attempts failing retryably, N at most the configured
maximum) is returned immediately after exactly N attempts; and when
every attempt fails retryably, exactly max_request_retries attempts occur
and the terminal OCR error chains the last underlying failure as its
cause. -/
theorem extract_invoice_retry_policy (decode : String → Option Json)
    (settings : Settings) (transport : Nat → Except String Json)
    (image_paths : List String) (hne : image_paths ≠ []) :
    (∀ (N : Nat) (rec : InvoiceOCRResponse), 1 ≤ N → N ≤ settings.max_request_retries →
      (∀ i, 1 ≤ i → i < N → ∃ e, attemptResult decode settings transport i = .retryable e) →
      attemptResult decode settings transport N = .success rec →
      extract_invoice decode settings transport image_paths =
        { result := .ok rec, encodeCalls := image_paths.length, transportCalls := N }) ∧
    (∀ e : Nat → AttemptError, 1 ≤ settings.max_request_retries →
      (∀ i, 1 ≤ i → i ≤ settings.max_request_retries →
        attemptResult decode settings transport i = .retryable (e i)) →
      extract_invoice decode settings transport image_paths =
        { result := .error (.ocrFailedAfterRetries (some (e settings.max_request_retries))),
          encodeCalls := image_paths.length,
          transportCalls := settings.max_request_retries }) := by
  have hempty : image_paths.isEmpty = false := by
    cases image_paths with
    | nil => exact absurd rfl hne
    | cons a as => rfl
  constructor
  · intro N rec hN1 hNmax hfail hsucc
    have hloop := extractLoop_success_at decode settings transport (N - 1)
      settings.max_request_retries 1 none rec (by omega)
      (fun i h1 h2 => hfail i h1 (by omega))
      (by rw [show 1 + (N - 1) = N by omega]; exact hsucc)
    simp only [extract_invoice, hempty, Bool.false_eq_true, if_false, hloop]
    have : N - 1 + 1 = N := by omega
    rw [this]
  · intro e hmax hfail
    have hloop := extractLoop_all_fail decode settings transport e
      settings.max_request_retries 1 none hmax
      (fun i h1 h2 => hfail i h1 (by omega))
    simp only [extract_invoice, hempty, Bool.false_eq_true, if_false, hloop]
    have : 1 + settings.max_request_retries - 1 = settings.max_request_retries := by omega
    rw [this]

/-- Witness for C1: with the default settings (three retries), a transport
failing once then succeeding returns the valid record after exactly two
attempts, and an always-failing transport exhausts all three attempts and
chains the last failure. -/
theorem extract_invoice_retry_policy_witness :
    extract_invoice goodDecode {} flakyTransport ["page_001.png"] =
      { result := .ok sampleRecord, encodeCalls := 1, transportCalls := 2 } ∧
    extract_invoice goodDecode {} deadTransport ["page_001.png"] =
      { result := .error (.ocrFailedAfterRetries (some (.httpError "connection refused"))),
        encodeCalls := 1, transportCalls := 3 } := by
  constructor
  · refine (extract_invoice_retry_policy goodDecode {} flakyTransport
      ["page_001.png"] (by decide)).1 2 sampleRecord (by decide) (by decide) ?_ (by decide)
    intro i h1 h2
    have : i = 1 := by omega
    subst this
    exact ⟨.httpError "timeout", by decide⟩
  · refine (extract_invoice_retry_policy goodDecode {} deadTransport
      ["page_001.png"] (by decide)).2 (fun _ => .httpError "connection refused")
      (by decide) ?_
    intro i h1 h2
    rfl

/-- C2 counterexample: a rendering that yields zero pages is returned by
pdf_bytes_to_images as an (empty) success value, not as a failure — the
function defines no rasterization error of its own and treats zero pages
as success. -/
theorem zero_pages_returned_as_empty_success :
    pdf_bytes_to_images (.ok 0) = .ok { image_paths := [] } ∧
    (pdf_bytes_to_images (.ok 0)).isOk = true := by
  exact ⟨rfl, rfl⟩

/-- C2 amended: pdf_bytes_to_images raises no error of its own — when the
underlying renderer fails, its exception propagates unchanged; when the
renderer returns pages, the call succeeds with exactly one saved image
per page, and in particular a zero-page rendering is returned as a
success with an empty page list (the zero-page condition is surfaced
later, by the OCR client's empty-input check). -/
theorem pdf_bytes_to_images_behaviour :
    (∀ e : String, pdf_bytes_to_images (.error e) = .error e) ∧
    (∀ (n : Nat) (r : RasterizedPDF), pdf_bytes_to_images (.ok n) = .ok r →
      r.image_paths.length = n) ∧
    pdf_bytes_to_images (.ok 0) = .ok { image_paths := [] } := by
  refine ⟨fun e => rfl, ?_, rfl⟩
  intro n r h
  simp only [pdf_bytes_to_images, Except.ok.injEq] at h
  subst h
  simp

/-- Witness for the amended C2: a three-page rendering yields three page
image paths. -/
theorem pdf_bytes_to_images_behaviour_witness :
    (pdf_bytes_to_images (.error "not a PDF") = .error "not a PDF") ∧
    ({ image_paths := ["page_001.png", "page_002.png", "page_003.png"] :
        RasterizedPDF }).image_paths.length = 3 :=
  ⟨pdf_bytes_to_images_behaviour.1 "not a PDF",
   pdf_bytes_to_images_behaviour.2.1 3
     { image_paths := ["page_001.png", "page_002.png", "page_003.png"] } rfl⟩

/-- C3: whenever rasterization succeeds, the pipeline invokes cleanup on
the rasterized resource exactly once on every exit path, a cleanup
failure never changes the outcome, and the OCR client's success or
failure propagates to the caller unchanged. -/
theorem pipeline_resource_discipline (r : RasterizedPDF)
    (ocr : List String → ExtractTrace) (b b' : Bool) :
    (pipelineRun (.ok r) ocr b).cleanupCalls = 1 ∧
    (∀ rec, (ocr r.image_paths).result = .ok rec →
      (pipelineRun (.ok r) ocr b).result = .ok rec) ∧
    (∀ e, (ocr r.image_paths).result = .error e →
      (pipelineRun (.ok r) ocr b).result = .error (.ocrError e)) ∧
    (pipelineRun (.ok r) ocr b).result = (pipelineRun (.ok r) ocr b').result := by
  refine ⟨rfl, ?_, ?_, rfl⟩
  · intro rec h
    simp [pipelineRun, h]
  · intro e h
    simp [pipelineRun, h]

/-- Witness for C3: after a successful rasterization and an OCR failure,
cleanup ran once (even with a cleanup that raises) and the OCR error is
what propagates. -/
theorem pipeline_resource_discipline_witness :
    (pipelineRun (.ok { image_paths := ["page_001.png"] })
      (fun _ => { result := .error (.ocrFailedAfterRetries none),
                  encodeCalls := 1, transportCalls := 3 }) true).cleanupCalls = 1 ∧
    (pipelineRun (.ok { image_paths := ["page_001.png"] })
      (fun _ => { result := .error (.ocrFailedAfterRetries none),
                  encodeCalls := 1, transportCalls := 3 }) true).result =
      .error (.ocrError (.ocrFailedAfterRetries none)) :=
  ⟨(pipeline_resource_discipline { image_paths := ["page_001.png"] }
      (fun _ => { result := .error (.ocrFailedAfterRetries none),
                  encodeCalls := 1, transportCalls := 3 }) true true).1,
   (pipeline_resource_discipline { image_paths := ["page_001.png"] }
      (fun _ => { result := .error (.ocrFailedAfterRetries none),
                  encodeCalls := 1, transportCalls := 3 }) true true).2.2.1 _ rfl⟩

/-- C7 failing input: when the model content decodes to a JSON array, the
setdefault coercion is applied to a non-dict, which raises an
AttributeError that is not in the except clause of the retry loop — the
call aborts after a single attempt (not the configured three) with the
uncaught error instead of consuming a retry and being wrapped after
exhaustion. -/
theorem json_array_content_escapes_retry_loop :
    extract_invoice arrayContentDecode {} arrayContentTransport ["page_001.png"] =
      { result := .error (.uncaughtError "AttributeError: decoded value has no setdefault"),
        encodeCalls := 1, transportCalls := 1 } ∧
    ({} : Settings).max_request_retries = 3 := by
  exact ⟨rfl, rfl⟩

/-- C9 counterexample: a model response that supplies its own
schema_version string passes validation unchanged, so extract_invoice
returns a record whose schema_version is "invoice_v2", refuting the
claim that every returned record carries "invoice_v1" regardless of the
response content. -/
theorem schema_version_passthrough :
    (extract_invoice taggedDecode {} taggedTransport ["page_001.png"]).result =
      .ok { schema_version := "invoice_v2", model := "deepseek-ai/DeepSeek-OCR",
            data := {} } ∧
    ("invoice_v2" = "invoice_v1") = False := by
  constructor
  · rfl
  · simp

/-- C9 amended: the schema_version of a record returned by the parse step
is "invoice_v1" exactly when the model response omitted the key (the
default-filling pass inserts it); a response supplying its own string
value has that value passed through into the validated record unchanged. -/
theorem schema_version_default_only (decode : String → Option Json)
    (settings : Settings) (content : String) (fields : List (String × Json))
    (hdec : decode content = some (.obj fields)) :
    (lookupField fields "schema_version" = none →
      ∀ rec, parse_completion decode settings (mkCompletion content) = .ok rec →
        rec.schema_version = "invoice_v1") ∧
    (∀ v, lookupField fields "schema_version" = some (.str v) →
      ∀ rec, parse_completion decode settings (mkCompletion content) = .ok rec →
        rec.schema_version = v) := by
  obtain ⟨F, hF, hOther, hData⟩ := coerceDefaults_lookup settings.deepseek_model fields
  have hsv := hOther "schema_version" (by decide)
  constructor
  · intro habs rec hok
    rw [parse_completion_mk, hdec] at hok
    have hval := parseDecoded_ok settings _ rec hok
    rw [hF] at hval
    apply (validateResponse_schema_version F rec hval).2 "invoice_v1"
    rw [hsv, habs]
    simp
  · intro v hv rec hok
    rw [parse_completion_mk, hdec] at hok
    have hval := parseDecoded_ok settings _ rec hok
    rw [hF] at hval
    exact (validateResponse_schema_version F rec hval).2 v (by rw [hsv, hv])

/-- Witness for the amended C9: the minimal response without the key yields
the default tag, the tagged response keeps its own tag. -/
theorem schema_version_default_only_witness :
    sampleRecord.schema_version = "invoice_v1" ∧
    ({ schema_version := "invoice_v2", model := "deepseek-ai/DeepSeek-OCR",
       data := {} } : InvoiceOCRResponse).schema_version = "invoice_v2" := by
  constructor
  · exact (schema_version_default_only goodDecode {} "good" [("data", .obj [])]
      rfl).1 rfl sampleRecord rfl
  · exact (schema_version_default_only taggedDecode {} "tagged"
      [("schema_version", .str "invoice_v2"), ("data", .obj [])] rfl).2
      "invoice_v2" rfl _ rfl

/-- C10: when rasterization succeeds but yields zero pages, the pipeline
fails with the OCR client's local empty-input ValueError, raised before
any image encoding and before any transport call; the zero-page
condition surfaces at the OCR-client boundary. -/
theorem zero_page_pdf_hits_empty_input_check (decode : String → Option Json)
    (settings : Settings) (transport : Nat → Except String Json) (b : Bool) :
    pipelineRun (.ok { image_paths := [] })
        (extract_invoice decode settings transport) b =
      { result := .error (.ocrError (.valueError "Expected at least one image for OCR")),
        cleanupCalls := 1, encodeCalls := 0, transportCalls := 0 } := rfl

/-- Lockstep is preserved by any sequence of operations from any state
already in lockstep. -/
theorem lockstep_preserved (serialize : InvoiceOCRResponse → String)
    (embed : String → List Int) :
    ∀ (ops : List IndexOp) (st : IndexState),
      indexCount st = st.store.length →
      indexCount (applyOps serialize embed st ops) =
        (applyOps serialize embed st ops).store.length := by
  intro ops
  induction ops with
  | nil => intro st h; exact h
  | cons op rest ih =>
    intro st h
    apply ih
    cases op with
    | drop => rfl
    | add invoices =>
      by_cases he : invoices.isEmpty
      · simp only [applyOp, add_invoices, he, if_pos]
        exact h
      · cases hidx : st.index with
        | none =>
          have h0 : st.store.length = 0 := by
            rw [← h]; simp [indexCount, hidx]
          simp [applyOp, add_invoices, he, hidx, indexCount, h0]
        | some f =>
          have hf : f.vectors.length = st.store.length := by
            rw [← h]; simp [indexCount, hidx]
          simp [applyOp, add_invoices, he, hidx, indexCount, hf]

/-- C5: the similarity structure's element count equals the parallel
store's length after any sequence of add and drop calls from the fresh
state; adding the empty sequence is a no-op leaving the state (hence both
lengths) unchanged; and a non-empty add appends exactly one vector and
one payload+text entry per invoice. -/
theorem index_lockstep (serialize : InvoiceOCRResponse → String)
    (embed : String → List Int) :
    (∀ ops : List IndexOp,
      indexCount (applyOps serialize embed {} ops) =
        (applyOps serialize embed {} ops).store.length) ∧
    (∀ st : IndexState, add_invoices serialize embed st [] = st) ∧
    (∀ (st : IndexState) (invoices : List InvoiceOCRResponse), invoices ≠ [] →
      indexCount (add_invoices serialize embed st invoices) =
        indexCount st + invoices.length ∧
      (add_invoices serialize embed st invoices).store =
        st.store ++ invoices.map (fun invoice =>
          { payload := invoice, raw_text := serialize invoice })) := by
  refine ⟨fun ops => lockstep_preserved serialize embed ops {} rfl,
          fun st => rfl, ?_⟩
  intro st invoices hne
  have he : invoices.isEmpty = false := by
    cases invoices with
    | nil => exact absurd rfl hne
    | cons a as => rfl
  cases hidx : st.index with
  | none =>
    constructor
    · simp [add_invoices, he, hidx, indexCount]
    · simp [add_invoices, he, hidx]
  | some f =>
    constructor
    · simp [add_invoices, he, hidx, indexCount]
    · simp [add_invoices, he, hidx]

/-- Witness for C5: a two-invoice add from the fresh state leaves the index
and store in lockstep at length two, and an empty add is a no-op. -/
theorem index_lockstep_witness :
    indexCount (applyOps (fun _ => "t") (fun _ => [1])
      {} [.add [sampleRecord, sampleRecord]]) = 2 ∧
    (applyOps (fun _ => "t") (fun _ => [1])
      {} [.add [sampleRecord, sampleRecord]]).store.length = 2 ∧
    add_invoices (fun _ => "t") (fun _ => [1]) {} [] = {} := by
  refine ⟨?_, ?_, (index_lockstep (fun _ => "t") (fun _ => [1])).2.1 {}⟩
  · have h := ((index_lockstep (fun _ => "t") (fun _ => [1])).2.2
      {} [sampleRecord, sampleRecord] (by simp)).1
    simpa [applyOps, applyOp] using h
  · have h := ((index_lockstep (fun _ => "t") (fun _ => [1])).2.2
      {} [sampleRecord, sampleRecord] (by simp)).2
    simp [applyOps, applyOp, h]

/-- C6: a query against the never-initialized index returns the empty
sequence, as does a query right after drop regardless of prior state;
otherwise at most top_k results are returned, and every returned entry
maps a position returned by the similarity search back to the stored
payload at that position, positions that are negative or out of the
store's bounds having been skipped. -/
theorem query_defensive (search : FaissFlat → String → Nat → List (Int × Int))
    (q : String) (k : Nat) :
    (queryIndex search {} q k = []) ∧
    (∀ st : IndexState, st.index = none → queryIndex search st q k = []) ∧
    (∀ st : IndexState, queryIndex search (dropIndex st) q k = []) ∧
    (∀ (st : IndexState) (f : FaissFlat), st.index = some f →
      (search f q k).length = k → (queryIndex search st q k).length ≤ k) ∧
    (∀ (st : IndexState) (f : FaissFlat) (score : Int) (p : InvoiceOCRResponse),
      st.index = some f → (score, p) ∈ queryIndex search st q k →
      ∃ (i : Nat) (entry : IndexedInvoice), i < st.store.length ∧
        st.store.get? i = some entry ∧ p = entry.payload ∧
        ((i : Int), score) ∈ search f q k) := by
  refine ⟨rfl, ?_, ?_, ?_, ?_⟩
  · intro st h
    simp [queryIndex, h]
  · intro st
    rfl
  · intro st f hidx hlen
    rw [queryIndex, hidx]
    calc (((search f q k).filterMap _).length) ≤ (search f q k).length :=
          List.length_filterMap_le _ _
      _ = k := hlen
  · intro st f score p hidx hmem
    rw [queryIndex, hidx] at hmem
    rw [List.mem_filterMap] at hmem
    obtain ⟨⟨pos, sc⟩, hin, hmap⟩ := hmem
    by_cases hskip : pos < 0 ∨ (st.store.length : Int) ≤ pos
    · rw [if_pos hskip] at hmap
      cases hmap
    · rw [if_neg hskip] at hmap
      push_neg at hskip
      obtain ⟨hpos, hlt⟩ := hskip
      cases hget : st.store.get? pos.toNat with
      | none =>
        rw [hget] at hmap
        cases hmap
      | some entry =>
        rw [hget] at hmap
        injection hmap with hmap
        have hsc : sc = score := congrArg Prod.fst hmap
        have hp : entry.payload = p := congrArg Prod.snd hmap
        refine ⟨pos.toNat, entry, ?_, hget, hp.symm, ?_⟩
        · omega
        · have hcast : (pos.toNat : Int) = pos := Int.toNat_of_nonneg hpos
          rw [hcast, ← hsc]
          exact hin

/-- Witness for C6: with a one-entry store and a search that returns the
positions 0 and the no-match sentinel -1, the query returns the single
stored payload and skips the sentinel. -/
theorem query_defensive_witness :
    (queryIndex (fun _ _ _ => [(0, 5), (-1, 0)])
        { index := some { dim := 1, vectors := [[1]] },
          store := [{ payload := sampleRecord, raw_text := "t" }] } "acme" 2).length ≤ 2 ∧
    queryIndex (fun _ _ _ => [(0, 5), (-1, 0)]) {} "acme" 2 = [] := by
  constructor
  · exact (query_defensive (fun _ _ _ => [(0, 5), (-1, 0)]) "acme" 2).2.2.2.1
      { index := some { dim := 1, vectors := [[1]] },
        store := [{ payload := sampleRecord, raw_text := "t" }] }
      { dim := 1, vectors := [[1]] } rfl rfl
  · exact (query_defensive (fun _ _ _ => [(0, 5), (-1, 0)]) "acme" 2).1

/-- C8: a payload in which one of the numeric fields marked nonnegative
(line-item quantity, unit_price or total; totals subtotal, tax or total)
carries a negative value fails schema validation of the invoice record —
the negative value is never accepted into a validated record. -/
theorem negative_constrained_field_rejected (fields dfields : List (String × Json))
    (fname : String) (n : Int) (hneg : n < 0)
    (hdata : lookupField fields "data" = some (.obj dfields))
    (hcase :
      (∃ (pre post : List Json) (ifields : List (String × Json)),
        lookupField dfields "line_items" = some (.arr (pre ++ .obj ifields :: post)) ∧
        (fname = "quantity" ∨ fname = "unit_price" ∨ fname = "total") ∧
        lookupField ifields fname = some (.num n)) ∨
      (∃ tfields : List (String × Json),
        lookupField dfields "totals" = some (.obj tfields) ∧
        (fname = "subtotal" ∨ fname = "tax" ∨ fname = "total") ∧
        lookupField tfields fname = some (.num n))) :
    (validateResponse (.obj fields)).isOk = false := by
  apply validateResponse_err_of_data
  rw [hdata]
  rcases hcase with ⟨pre, post, ifields, hli, hf, hlook⟩ | ⟨tfields, ht, hf, hlook⟩
  · apply validateInvoiceData_err_of_lineitems dfields _ hli
    apply validateLineItems_err _ (.obj ifields) (by simp)
    exact validateLineItem_negative ifields fname n hneg hf hlook
  · apply validateInvoiceData_err_of_totals dfields _ ht
    exact validateTotals_negative tfields fname n hneg hf hlook

/-- Witness for C8: a record with a line item of quantity -1 and a record
with totals tax -3 both fail validation. -/
theorem negative_constrained_field_rejected_witness :
    (validateResponse (.obj [("model", .str "m"), ("data", .obj [("line_items",
        .arr [.obj [("description", .str "x"), ("quantity", .num (-1)),
                    ("unit_price", .num 2)]])])])).isOk = false ∧
    (validateResponse (.obj [("model", .str "m"), ("data", .obj [("totals",
        .obj [("tax", .num (-3))])])])).isOk = false := by
  constructor
  · exact negative_constrained_field_rejected _ _ "quantity" (-1) (by decide) rfl
      (Or.inl ⟨[], [], _, rfl, Or.inl rfl, rfl⟩)
  · exact negative_constrained_field_rejected _ _ "tax" (-3) (by decide) rfl
      (Or.inr ⟨_, rfl, Or.inr (Or.inl rfl), rfl⟩)

/-- C4: a model response missing only the boilerplate keys schema_version,
status, model, warnings and the nested data.totals is coerced by filling
exactly those defaults and then validates successfully; a response whose
data.line_items contains an item without a description still fails
schema validation (surfaced as the retried ValidationError). -/
theorem boilerplate_defaults_coercion (decode : String → Option Json)
    (settings : Settings) (content : String) (fields : List (String × Json))
    (hdec : decode content = some (.obj fields)) :
    (∀ (dfields : List (String × Json)) (dd : InvoiceData),
      lookupField fields "schema_version" = none →
      lookupField fields "status" = none →
      lookupField fields "model" = none →
      lookupField fields "warnings" = none →
      lookupField fields "raw_text" = none →
      lookupField fields "data" = some (.obj dfields) →
      validateInvoiceData (some ((Json.obj dfields).setdefault "totals" (.obj []))) =
        .ok dd →
      parse_completion decode settings (mkCompletion content) =
        .ok { schema_version := "invoice_v1", status := .success,
              model := settings.deepseek_model, data := dd,
              warnings := [], raw_text := none }) ∧
    (∀ (dfields ifields : List (String × Json)) (pre post : List Json),
      lookupField fields "data" = some (.obj dfields) →
      lookupField dfields "line_items" = some (.arr (pre ++ .obj ifields :: post)) →
      lookupField ifields "description" = none →
      ∃ msg, parse_completion decode settings (mkCompletion content) =
        .error (.validationError msg)) := by
  obtain ⟨F, hF, hOther, hData⟩ := coerceDefaults_lookup settings.deepseek_model fields
  constructor
  · intro dfields dd hsv hst hm hw hr hd hval
    rw [parse_completion_mk, hdec]
    have hsvF : lookupField F "schema_version" = some (.str "invoice_v1") := by
      rw [hOther "schema_version" (by decide), hsv]
      simp
    have hstF : lookupField F "status" = some (.str "success") := by
      rw [hOther "status" (by decide), hst]
      simp
    have hmF : lookupField F "model" = some (.str settings.deepseek_model) := by
      rw [hOther "model" (by decide), hm]
      simp
    have hwF : lookupField F "warnings" = some (.arr []) := by
      rw [hOther "warnings" (by decide), hw]
      simp
    have hrF : lookupField F "raw_text" = none := by
      rw [hOther "raw_text" (by decide), hr]
      simp
    have hdF : lookupField F "data" =
        some ((Json.obj dfields).setdefault "totals" (.obj [])) := by
      rw [hData, hd]
    have hvresp := validateResponse_of_lookups F "invoice_v1" settings.deepseek_model
      ((Json.obj dfields).setdefault "totals" (.obj [])) dd
      hsvF hstF hmF hdF hwF hrF hval
    have houter : (Json.obj fields).isObj = true := rfl
    simp [parseDecoded, houter, hF, Json.getKey, hdF,
      setdefault_obj_isObj dfields "totals" (.obj []), hvresp]
  · intro dfields ifields pre post hd hli hdesc
    rw [parse_completion_mk, hdec]
    obtain ⟨D2, hD2, hLD2⟩ := lookupField_setdefault dfields "totals" (.obj [])
    have hdF : lookupField F "data" = some (.obj D2) := by
      rw [hData, hd, hD2]
    have hliD2 : lookupField D2 "line_items" = some (.arr (pre ++ .obj ifields :: post)) := by
      rw [hLD2 "line_items", hli]
    have herr : (validateResponse (.obj F)).isOk = false := by
      apply validateResponse_err_of_data
      rw [hdF]
      apply validateInvoiceData_err_of_lineitems D2 _ hliD2
      apply validateLineItems_err _ (.obj ifields) (by simp)
      exact validateLineItem_missing_description ifields hdesc
    exact parseDecoded_validationError settings fields F (.obj D2) hF hdF rfl herr

/-- Witness for C4: the response consisting of just a data object with a
valid line item succeeds with all boilerplate defaults filled; the same
response with the description removed fails validation. -/
theorem boilerplate_defaults_coercion_witness :
    parse_completion
        (fun s => if s = "w4" then
          some (.obj [("data", .obj [("line_items",
            .arr [.obj [("description", .str "widget"), ("quantity", .num 2),
                        ("unit_price", .num 5)]])])])
          else none) {} (mkCompletion "w4") =
      .ok { schema_version := "invoice_v1", status := .success,
            model := "deepseek-ai/DeepSeek-OCR",
            data := { line_items := [{ description := "widget", quantity := 2,
                                       unit_price := 5 }] },
            warnings := [], raw_text := none } ∧
    ∃ msg, parse_completion
        (fun s => if s = "w4bad" then
          some (.obj [("data", .obj [("line_items",
            .arr [.obj [("quantity", .num 2), ("unit_price", .num 5)]])])])
          else none) {} (mkCompletion "w4bad") =
      .error (.validationError msg) := by
  constructor
  · exact (boilerplate_defaults_coercion _ {} "w4"
      [("data", .obj [("line_items",
        .arr [.obj [("description", .str "widget"), ("quantity", .num 2),
                    ("unit_price", .num 5)]])])] rfl).1
      [("line_items", .arr [.obj [("description", .str "widget"),
        ("quantity", .num 2), ("unit_price", .num 5)]])]
      { line_items := [{ description := "widget", quantity := 2, unit_price := 5 }] }
      rfl rfl rfl rfl rfl rfl rfl
  · exact (boilerplate_defaults_coercion _ {} "w4bad"
      [("data", .obj [("line_items",
        .arr [.obj [("quantity", .num 2), ("unit_price", .num 5)]])])] rfl).2
      [("line_items", .arr [.obj [("quantity", .num 2), ("unit_price", .num 5)]])]
      [("quantity", .num 2), ("unit_price", .num 5)] [] [] rfl rfl rfl

end DeepSeekOCR
